import Mathlib

/-!
Shallow embedding of the real-estate backend (src/main.py, src/schemas.py).

The repository exposes two main HTTP handlers:
  * `GET /api/listings`  — `get_listings(featured, limit)`: try a live
    document-store query, fall back to the fixed `DEMO_LISTINGS` on any
    failure or empty result, filtering by `featured` and slicing by `limit`.
  * `POST /api/inquiries` — `create_inquiry(payload)`: try to persist the
    inquiry, acknowledge with the generated id on success and with the
    sentinel id "demo" on any failure.

Python integers are modelled as `Int`, Python floats appearing here are the
exact decimal literals of the source and are modelled as `Rat`, optional
values as `Option`, and the document store as an explicit state
(`DBState`).  Exceptions raised and caught on the live path are modelled by
the `DBResult.exc` constructor.
-/

namespace RealEstate

/-- Response model `ListingOut` (src/main.py lines 19-32).  Field types follow
the pydantic declaration exactly; note that `ListingOut` itself places no
non-negativity constraint on `price`, `beds`, `baths` or `sqft`. -/
structure ListingOut where
  id : Option String := none
  title : String
  address : String
  city : String
  state : String
  price : Int
  beds : Int
  baths : Rat
  sqft : Int
  image : Option String := none
  gallery : Option (List String) := none
  featured : Bool := false
  property_type : String := "House"
deriving DecidableEq, Repr

/-- First fallback record of `DEMO_LISTINGS` (src/main.py lines 44-58). -/
def demoListing1 : ListingOut :=
  { id := some "demo-1"
    title := "Modern Smart Home with Skyline Views"
    address := "123 Aurora Ave"
    city := "San Francisco"
    state := "CA"
    price := 1895000
    beds := 4
    baths := 3.5
    sqft := 2560
    image := some "https://images.unsplash.com/photo-1507089947368-19c1da9775ae?w=1600"
    gallery := none
    featured := true
    property_type := "House" }

/-- Second fallback record of `DEMO_LISTINGS` (src/main.py lines 59-72). -/
def demoListing2 : ListingOut :=
  { id := some "demo-2"
    title := "Sleek Downtown Loft"
    address := "77 Horizon St Apt 12B"
    city := "New York"
    state := "NY"
    price := 1299000
    beds := 2
    baths := 2
    sqft := 1180
    image := some "https://images.unsplash.com/photo-1502672260266-1c1ef2d93688?w=1600"
    featured := true
    property_type := "Condo" }

/-- Third fallback record of `DEMO_LISTINGS` (src/main.py lines 73-86). -/
def demoListing3 : ListingOut :=
  { id := some "demo-3"
    title := "Sunlit Suburban Retreat"
    address := "940 Evergreen Dr"
    city := "Austin"
    state := "TX"
    price := 739000
    beds := 3
    baths := 2
    sqft := 1920
    image := some "https://images.unsplash.com/photo-1564013799919-ab600027ffc6?w=1600"
    featured := false
    property_type := "House" }

/-- The fixed fallback dataset `DEMO_LISTINGS` (src/main.py lines 43-87). -/
def DEMO_LISTINGS : List ListingOut := [demoListing1, demoListing2, demoListing3]

/-- A raw document of the `listing` collection as the live path consumes it:
a Mongo `_id`, a `created_at` sort key, and the payload fields that
`ListingOut(**doc)` reads (src/main.py lines 155-159). -/
structure Doc where
  oid : String
  createdAt : Int
  title : String
  address : String
  city : String
  state : String
  price : Int
  beds : Int
  baths : Rat
  sqft : Int
  image : Option String := none
  gallery : Option (List String) := none
  featured : Bool := false
  property_type : String := "House"
deriving DecidableEq, Repr

/-- Mapping of a raw document to the response model: `doc["id"] = str(doc["_id"])`
followed by `ListingOut(**doc)` (src/main.py lines 156-159).  Every payload
field is passed through unchanged. -/
def docToListing (d : Doc) : ListingOut :=
  { id := some d.oid
    title := d.title
    address := d.address
    city := d.city
    state := d.state
    price := d.price
    beds := d.beds
    baths := d.baths
    sqft := d.sqft
    image := d.image
    gallery := d.gallery
    featured := d.featured
    property_type := d.property_type }

/-- One step of a stable insertion sort by `created_at` descending, modelling
`cursor.sort("created_at", -1)` (src/main.py line 151). -/
def insertDesc (d : Doc) : List Doc → List Doc
  | [] => [d]
  | x :: xs => if d.createdAt ≤ x.createdAt then x :: insertDesc d xs else d :: x :: xs

/-- Sort by `created_at` descending (src/main.py line 151). -/
def sortByCreatedDesc : List Doc → List Doc
  | [] => []
  | d :: ds => insertDesc d (sortByCreatedDesc ds)

/-- The live path's treatment of `limit` (src/main.py lines 152-153):
`if limit:` is a Python truthiness test, so the limit is applied only when it
is present and non-zero; `cursor.limit(n)` keeps the first `|n|` documents. -/
def liveApplyLimit (limit : Option Int) (xs : List α) : List α :=
  match limit with
  | none => xs
  | some n => if n = 0 then xs else xs.take n.natAbs

/-- Python list slicing `xs[:n]` for an arbitrary integer `n`: the first `n`
elements when `n ≥ 0`, and all but the last `|n|` elements when `n < 0`. -/
def pySliceTo (n : Int) (xs : List α) : List α :=
  if 0 ≤ n then xs.take n.toNat else xs.take (xs.length - n.natAbs)

/-- The fallback path's treatment of `limit` (src/main.py lines 169-170):
`if limit is not None: data = data[:limit]`. -/
def fallbackApplyLimit (limit : Option Int) (xs : List α) : List α :=
  match limit with
  | none => xs
  | some n => pySliceTo n xs

/-- The live query pipeline (src/main.py lines 148-159): restrict to
`featured` when provided, sort by `created_at` descending, apply the limit,
and map each document through `docToListing`. -/
def liveQueryItems (docs : List Doc) (featured : Option Bool) (limit : Option Int) :
    List ListingOut :=
  let matched := match featured with
    | none => docs
    | some f => docs.filter (fun d => d.featured == f)
  (liveApplyLimit limit (sortByCreatedDesc matched)).map docToListing

/-- Backend condition for a single request: the `database` module may be
absent (the import raises), present but uninitialised (`db is None`), raise
during the query, or hold a list of documents. -/
inductive DBState where
  | moduleAbsent
  | dbNone
  | error
  | available (docs : List Doc)
deriving DecidableEq, Repr

/-- Result of running the body of a `try:` block: a value, or a raised
exception. -/
inductive DBResult (α : Type) where
  | ok (val : α)
  | exc
deriving DecidableEq, Repr

/-- The `try:` block of `get_listings` (src/main.py lines 145-161): `.exc`
when the import or the query raises, `.ok none` when control falls through
to the fallback without an exception (`db is None`, or the live query yields
no items), `.ok (some items)` when the live path returns. -/
def tryLivePath (db : DBState) (featured : Option Bool) (limit : Option Int) :
    DBResult (Option (List ListingOut)) :=
  match db with
  | .moduleAbsent => .exc
  | .dbNone => .ok none
  | .error => .exc
  | .available docs =>
      let items := liveQueryItems docs featured limit
      .ok (if items.isEmpty then none else some items)

/-- The fallback branch of `get_listings` (src/main.py lines 166-171):
filter the dataset by `featured` when provided, then slice by `limit` when
provided. -/
def fallbackResult (demo : List ListingOut) (featured : Option Bool) (limit : Option Int) :
    List ListingOut :=
  let data := match featured with
    | none => demo
    | some f => demo.filter (fun d => d.featured == f)
  fallbackApplyLimit limit data

/-- The handler `get_listings` (src/main.py lines 142-171): live items when
the live path produced a non-empty list, otherwise the fallback over
`DEMO_LISTINGS`.  Any exception is swallowed. -/
def get_listings (db : DBState) (featured : Option Bool) (limit : Option Int) :
    List ListingOut :=
  match tryLivePath db featured limit with
  | .ok (some items) => items
  | _ => fallbackResult DEMO_LISTINGS featured limit

/-- State-passing form of `get_listings`, making the handler's effect on the
module-level `DEMO_LISTINGS` binding explicit: the handler only reads the
global (`data = DEMO_LISTINGS`) and rebinds the local `data` to freshly
built lists (a comprehension and a slice), so the global is returned
unchanged (src/main.py lines 166-171). -/
def get_listings_run (demo : List ListingOut) (db : DBState) (featured : Option Bool)
    (limit : Option Int) : List ListingOut × List ListingOut :=
  match tryLivePath db featured limit with
  | .ok (some items) => (items, demo)
  | _ =>
      let data := demo
      let data := match featured with
        | none => data
        | some f => data.filter (fun d => d.featured == f)
      let data := fallbackApplyLimit limit data
      (data, demo)

/-- Validated inquiry payload `InquiryIn` (src/main.py lines 35-39). -/
structure InquiryIn where
  name : String
  email : String
  message : String
  property_id : Option String := none
deriving DecidableEq, Repr

/-- An unvalidated request body for `POST /api/inquiries`, before pydantic
validation runs. -/
structure RawInquiry where
  name : String
  email : String
  message : String
  property_id : Option String := none
deriving DecidableEq, Repr

/-- Modelled from the spec: the outcome of `database.create_document`, which
is not under src/.  On success it yields the generated document identifier;
an absent module, misconfiguration, or a store error all raise, which the
handler observes as a single caught exception. -/
inductive InsertOutcome where
  | ok (docId : String)
  | exc
deriving DecidableEq, Repr

/-- Response body of `POST /api/inquiries` (src/main.py lines 180, 183). -/
structure InquiryResponse where
  status : String
  id : String
deriving DecidableEq, Repr

/-- The handler `create_inquiry` (src/main.py lines 174-183): return the
generated id with status "ok" on success, and the sentinel `{"ok","demo"}`
when the insertion raised. -/
def create_inquiry (_payload : InquiryIn) (outcome : InsertOutcome) : InquiryResponse :=
  match outcome with
  | .ok docId => { status := "ok", id := docId }
  | .exc => { status := "ok", id := "demo" }

/-- Pydantic validation of `InquiryIn` (src/main.py lines 35-39): `message`
must have length between 5 and 2000, and `email` must be a syntactically
valid email address.  `EmailStr`'s syntax checker lives in an external
library, so it is abstracted as the parameter `validEmail`. -/
def validateInquiry (validEmail : String → Bool) (r : RawInquiry) : Option InquiryIn :=
  if validEmail r.email && decide (5 ≤ r.message.length) && decide (r.message.length ≤ 2000) then
    some { name := r.name, email := r.email, message := r.message,
           property_id := r.property_id }
  else
    none

/-- Response of the `POST /api/inquiries` route as a whole: a 422 validation
error produced by FastAPI before the handler runs, or the handler's 200
response. -/
inductive InquiriesRouteResponse where
  | validationError
  | success (r : InquiryResponse)
deriving DecidableEq, Repr

/-- The full `POST /api/inquiries` route: FastAPI validates the body against
`InquiryIn` and rejects with a client error before `create_inquiry` runs;
otherwise the handler runs and attempts the insertion.  The boolean records
whether the handler (and hence the persistence attempt) was reached. -/
def post_inquiries (validEmail : String → Bool) (r : RawInquiry) (outcome : InsertOutcome) :
    InquiriesRouteResponse × Bool :=
  match validateInquiry validEmail r with
  | none => (.validationError, false)
  | some payload => (.success (create_inquiry payload outcome), true)

/-- The data-model invariant of §3 of the spec, as the constraints `ge=0` on
`price`, `beds`, `baths`, `sqft` of `Listing` in src/schemas.py lines 43-59. -/
def listingInv (x : ListingOut) : Prop :=
  0 ≤ x.price ∧ 0 ≤ x.beds ∧ 0 ≤ x.baths ∧ 0 ≤ x.sqft

instance (x : ListingOut) : Decidable (listingInv x) := by
  unfold listingInv; infer_instance

/-- A stored document satisfying the collection schema `Listing`
(src/schemas.py lines 43-59, fields with `ge=0`). -/
def docSchemaValid (d : Doc) : Prop :=
  0 ≤ d.price ∧ 0 ≤ d.beds ∧ 0 ≤ d.baths ∧ 0 ≤ d.sqft

instance (d : Doc) : Decidable (docSchemaValid d) := by
  unfold docSchemaValid; infer_instance

/-- A sample live document used to exercise the live path on concrete
inputs. -/
def liveDocA : Doc :=
  { oid := "651f1a2b3c4d5e6f7a8b9c0d"
    createdAt := 10
    title := "Riverside Cottage"
    address := "5 Bank Ln"
    city := "Portland"
    state := "OR"
    price := 450000
    beds := 2
    baths := 1
    sqft := 900
    featured := true }

/-! ### Helper lemmas -/

theorem length_insertDesc (d : Doc) (xs : List Doc) :
    (insertDesc d xs).length = xs.length + 1 := by
  induction xs with
  | nil => rfl
  | cons x xs ih =>
      simp only [insertDesc]
      split
      · simp [ih]
      · simp

theorem mem_insertDesc {x d : Doc} {xs : List Doc} :
    x ∈ insertDesc d xs ↔ x = d ∨ x ∈ xs := by
  induction xs with
  | nil => simp [insertDesc]
  | cons y ys ih =>
      simp only [insertDesc]
      split
      · simp only [List.mem_cons, ih]
        tauto
      · simp [List.mem_cons]

theorem length_sortByCreatedDesc (xs : List Doc) :
    (sortByCreatedDesc xs).length = xs.length := by
  induction xs with
  | nil => rfl
  | cons x xs ih => simp [sortByCreatedDesc, length_insertDesc, ih]

theorem mem_sortByCreatedDesc {x : Doc} {xs : List Doc} :
    x ∈ sortByCreatedDesc xs ↔ x ∈ xs := by
  induction xs with
  | nil => simp [sortByCreatedDesc]
  | cons y ys ih => simp [sortByCreatedDesc, mem_insertDesc, ih]

theorem mem_liveApplyLimit {α} {x : α} {l : Option Int} {xs : List α}
    (hx : x ∈ liveApplyLimit l xs) : x ∈ xs := by
  cases l with
  | none => exact hx
  | some n =>
      simp only [liveApplyLimit] at hx
      split at hx
      · exact hx
      · exact (List.take_sublist _ _).subset hx

theorem length_liveApplyLimit_le {α} {n : Int} (hn : n ≠ 0) (xs : List α) :
    (liveApplyLimit (some n) xs).length ≤ n.natAbs := by
  simp only [liveApplyLimit, hn, if_false, List.length_take]
  exact min_le_left _ _

theorem mem_pySliceTo {α} {x : α} {n : Int} {xs : List α}
    (hx : x ∈ pySliceTo n xs) : x ∈ xs := by
  simp only [pySliceTo] at hx
  split at hx <;> exact (List.take_sublist _ _).subset hx

theorem length_pySliceTo_le {α} {n : Int} (hn : 0 ≤ n) (xs : List α) :
    ((pySliceTo n xs).length : Int) ≤ n := by
  simp only [pySliceTo, hn, if_true, List.length_take]
  have h1 : min n.toNat xs.length ≤ n.toNat := min_le_left _ _
  omega

theorem mem_fallbackApplyLimit {α} {x : α} {l : Option Int} {xs : List α}
    (hx : x ∈ fallbackApplyLimit l xs) : x ∈ xs := by
  cases l with
  | none => exact hx
  | some n => exact mem_pySliceTo hx

theorem mem_fallbackResult_subset {x : ListingOut} {demo : List ListingOut}
    {f : Option Bool} {l : Option Int} (hx : x ∈ fallbackResult demo f l) : x ∈ demo := by
  cases f with
  | none => exact mem_fallbackApplyLimit hx
  | some b => exact (List.mem_filter.mp (mem_fallbackApplyLimit hx)).1

theorem mem_fallbackResult_featured {x : ListingOut} {demo : List ListingOut}
    {b : Bool} {l : Option Int} (hx : x ∈ fallbackResult demo (some b) l) :
    x.featured = b := by
  have h := (List.mem_filter.mp (mem_fallbackApplyLimit hx)).2
  exact beq_iff_eq.mp h

theorem length_fallbackResult_le {demo : List ListingOut} {f : Option Bool} {n : Int}
    (hn : 0 ≤ n) : ((fallbackResult demo f (some n)).length : Int) ≤ n :=
  length_pySliceTo_le hn _

theorem mem_liveQueryItems {x : ListingOut} {docs : List Doc} {f : Option Bool}
    {l : Option Int} (hx : x ∈ liveQueryItems docs f l) :
    ∃ d ∈ docs, x = docToListing d ∧ ∀ b, f = some b → d.featured = b := by
  simp only [liveQueryItems] at hx
  obtain ⟨d, hd, hxd⟩ := List.mem_map.mp hx
  have hd2 := mem_sortByCreatedDesc.mp (mem_liveApplyLimit hd)
  cases f with
  | none => exact ⟨d, hd2, hxd.symm, fun b hb => by cases hb⟩
  | some b =>
      obtain ⟨hmem, hfeat⟩ := List.mem_filter.mp hd2
      exact ⟨d, hmem, hxd.symm, fun b' hb' => by
        cases hb'
        exact beq_iff_eq.mp hfeat⟩

theorem length_liveQueryItems_le {docs : List Doc} {f : Option Bool} {n : Int}
    (hn : 0 < n) : ((liveQueryItems docs f (some n)).length : Int) ≤ n := by
  have hne : n ≠ 0 := by omega
  simp only [liveQueryItems, List.length_map]
  have h1 := length_liveApplyLimit_le (α := Doc) hne
  have h2 := h1 (sortByCreatedDesc (match f with
    | none => docs
    | some b => docs.filter (fun d => d.featured == b)))
  omega

theorem featured_docToListing (d : Doc) : (docToListing d).featured = d.featured := rfl

theorem docToListing_inv {d : Doc} (h : docSchemaValid d) : listingInv (docToListing d) := h

theorem demo_listings_inv : ∀ x ∈ DEMO_LISTINGS, listingInv x := by
  intro x hx
  simp only [DEMO_LISTINGS, List.mem_cons, List.not_mem_nil, or_false] at hx
  rcases hx with h | h | h <;> subst h <;>
    simp only [listingInv, demoListing1, demoListing2, demoListing3] <;>
    norm_num

theorem get_listings_cases (db : DBState) (f : Option Bool) (l : Option Int) :
    (∃ docs, db = .available docs ∧ get_listings db f l = liveQueryItems docs f l) ∨
    get_listings db f l = fallbackResult DEMO_LISTINGS f l := by
  cases db with
  | moduleAbsent => right; rfl
  | dbNone => right; rfl
  | error => right; rfl
  | available docs =>
      by_cases h : (liveQueryItems docs f l).isEmpty
      · right
        simp [get_listings, tryLivePath, h]
      · left
        exact ⟨docs, rfl, by simp [get_listings, tryLivePath, h]⟩

theorem filter_map_featured (f : Bool) (docs : List Doc) :
    (docs.filter (fun d => d.featured == f)).map docToListing
      = (docs.map docToListing).filter (fun x => x.featured == f) := by
  induction docs with
  | nil => rfl
  | cons d ds ih =>
      simp only [List.map_cons, List.filter_cons, featured_docToListing]
      by_cases h : (d.featured == f) = true
      · simp [h, ih]
      · simp [h, ih]

/-! ### Claim theorems -/

/-- C1: for every optional boolean `featured` and optional positive integer
`limit`, the list returned by `get_listings` has length at most `limit` when
`limit` is provided, and every returned element has its `featured` field
equal to the `featured` parameter when that parameter is provided, on the
live path and the fallback path alike. -/
theorem get_listings_respects_featured_and_limit (db : DBState) (f : Option Bool)
    (l : Option Int) (hl : ∀ n, l = some n → 0 < n) :
    (∀ n, l = some n → ((get_listings db f l).length : Int) ≤ n) ∧
    (∀ b, f = some b → ∀ x ∈ get_listings db f l, x.featured = b) := by
  rcases get_listings_cases db f l with ⟨docs, hdb, heq⟩ | heq <;> rw [heq]
  · constructor
    · intro n hn
      subst hn
      exact length_liveQueryItems_le (hl n rfl)
    · intro b hb x hx
      obtain ⟨d, hd, hxd, hfeat⟩ := mem_liveQueryItems hx
      subst hxd
      rw [featured_docToListing]
      exact hfeat b hb
  · constructor
    · intro n hn
      subst hn
      exact length_fallbackResult_le (le_of_lt (hl n rfl))
    · intro b hb x hx
      subst hb
      exact mem_fallbackResult_featured hx

/-- Witness for C1 at `db = moduleAbsent`, `featured = some true`,
`limit = some 1`. -/
theorem get_listings_respects_featured_and_limit_witness :
    ((get_listings .moduleAbsent (some true) (some 1)).length : Int) ≤ 1 ∧
    demoListing1.featured = true := by
  have hpos : ∀ n : Int, (some 1 : Option Int) = some n → 0 < n := by
    intro n h
    cases h
    norm_num
  have h := get_listings_respects_featured_and_limit .moduleAbsent (some true) (some 1) hpos
  refine ⟨h.1 1 rfl, ?_⟩
  have hmem : demoListing1 ∈ get_listings .moduleAbsent (some true) (some 1) := by
    rw [show get_listings .moduleAbsent (some true) (some 1) = [demoListing1] from rfl]
    exact List.mem_singleton.mpr rfl
  exact h.2 true rfl demoListing1 hmem

/-- C2: for every validated inquiry payload and every insertion outcome,
`create_inquiry` returns status "ok"; the returned id is the sentinel "demo"
exactly when the insertion raised, and on success it is the identifier the
insertion produced (provided the store never generates the sentinel itself). -/
theorem create_inquiry_ack (payload : InquiryIn) (o : InsertOutcome)
    (h : ∀ d, o = .ok d → d ≠ "demo") :
    (create_inquiry payload o).status = "ok" ∧
    ((create_inquiry payload o).id = "demo" ↔ o = .exc) ∧
    (∀ d, o = .ok d → (create_inquiry payload o).id = d) := by
  cases o with
  | ok d =>
      refine ⟨rfl, ?_, ?_⟩
      · simp only [create_inquiry]
        constructor
        · intro hd
          exact absurd hd (h d rfl)
        · intro hc
          cases hc
      · intro d' hd'
        cases hd'
        rfl
  | exc => exact ⟨rfl, by simp [create_inquiry], fun d hd => by cases hd⟩

/-- Witness for C2 at the failing outcome. -/
theorem create_inquiry_ack_witness :
    (create_inquiry ⟨"Jane", "jane@example.com", "Hello there", none⟩ .exc).status = "ok" ∧
    ((create_inquiry ⟨"Jane", "jane@example.com", "Hello there", none⟩ .exc).id = "demo"
      ↔ (InsertOutcome.exc : InsertOutcome) = .exc) ∧
    (∀ d, (InsertOutcome.exc : InsertOutcome) = .ok d →
      (create_inquiry ⟨"Jane", "jane@example.com", "Hello there", none⟩ .exc).id = d) :=
  create_inquiry_ack ⟨"Jane", "jane@example.com", "Hello there", none⟩ .exc
    (fun d hd => by cases hd)

/-- C3: when the live path yields nothing — the import raises, the store
errors, or the live query returns no documents — `get_listings` with no
`featured` and no `limit` returns exactly the three fallback listings
demo-1, demo-2, demo-3 in their fixed order. -/
theorem get_listings_fallback_no_filters (db : DBState)
    (h : tryLivePath db none none = .exc ∨ tryLivePath db none none = .ok none) :
    get_listings db none none = [demoListing1, demoListing2, demoListing3] := by
  rcases h with h | h <;> (simp [get_listings, h]; rfl)

/-- Witness for C3 at `db = moduleAbsent`. -/
theorem get_listings_fallback_no_filters_witness :
    get_listings .moduleAbsent none none = [demoListing1, demoListing2, demoListing3] :=
  get_listings_fallback_no_filters .moduleAbsent (Or.inl rfl)

/-- C4 counterexample: the live path's treatment of `limit` does not agree
with the fallback path's for every integer limit — at `limit = 0` the live
path applies no truncation (`if limit:` is false) while the fallback slices
to the empty list. -/
theorem live_fallback_limit_disagree_at_zero :
    liveApplyLimit (some 0) DEMO_LISTINGS = DEMO_LISTINGS ∧
    fallbackApplyLimit (some 0) DEMO_LISTINGS = [] ∧
    liveApplyLimit (some 0) DEMO_LISTINGS ≠ fallbackApplyLimit (some 0) DEMO_LISTINGS := by
  refine ⟨rfl, rfl, ?_⟩
  rw [show liveApplyLimit (some 0) DEMO_LISTINGS = DEMO_LISTINGS from rfl,
      show fallbackApplyLimit (some 0) DEMO_LISTINGS = ([] : List ListingOut) from rfl]
  simp [DEMO_LISTINGS]

/-- C4 (amended): the live path's query restriction on `featured` agrees
with the fallback path's local filter, and its treatment of `limit` agrees
with the fallback truncation for every positive limit; the two diverge at
`limit = 0`, where the live path ignores the limit and the fallback returns
the empty list. -/
theorem live_fallback_filters_agree (f : Bool) (docs : List Doc) (n : Int) (hn : 0 < n) :
    ((docs.filter (fun d => d.featured == f)).map docToListing
      = (docs.map docToListing).filter (fun x => x.featured == f)) ∧
    ∀ (xs : List ListingOut), liveApplyLimit (some n) xs = fallbackApplyLimit (some n) xs := by
  refine ⟨filter_map_featured f docs, ?_⟩
  intro xs
  have hne : n ≠ 0 := by omega
  have h0 : 0 ≤ n := by omega
  simp only [liveApplyLimit, fallbackApplyLimit, pySliceTo, hne, if_false, h0, if_true]
  congr 1
  omega

/-- Witness for C4 (amended) at `f = true`, `docs = []`, `n = 1`. -/
theorem live_fallback_filters_agree_witness :
    ((([] : List Doc).filter (fun d => d.featured == true)).map docToListing
      = (([] : List Doc).map docToListing).filter (fun x => x.featured == true)) ∧
    liveApplyLimit (some 1) DEMO_LISTINGS = fallbackApplyLimit (some 1) DEMO_LISTINGS :=
  ⟨(live_fallback_filters_agree true [] 1 one_pos).1,
   (live_fallback_filters_agree true [] 1 one_pos).2 DEMO_LISTINGS⟩

/-- C5: every listing returned by `get_listings` satisfies the data-model
invariant price ≥ 0, beds ≥ 0, baths ≥ 0, sqft ≥ 0 — unconditionally for
the fallback records, and for live-mapped documents whenever the stored
documents satisfy the `Listing` collection schema of src/schemas.py. -/
theorem get_listings_invariant (db : DBState) (f : Option Bool) (l : Option Int)
    (h : ∀ docs, db = .available docs → ∀ d ∈ docs, docSchemaValid d) :
    ∀ x ∈ get_listings db f l, listingInv x := by
  rcases get_listings_cases db f l with ⟨docs, hdb, heq⟩ | heq <;> rw [heq]
  · intro x hx
    obtain ⟨d, hd, hxd, -⟩ := mem_liveQueryItems hx
    subst hxd
    exact docToListing_inv (h docs hdb d hd)
  · intro x hx
    exact demo_listings_inv x (mem_fallbackResult_subset hx)

/-- Witness for C5 at a store holding one schema-valid document. -/
theorem get_listings_invariant_witness : listingInv (docToListing liveDocA) := by
  have hvalid : ∀ docs, DBState.available [liveDocA] = .available docs →
      ∀ d ∈ docs, docSchemaValid d := by
    intro docs hdocs d hd
    cases hdocs
    simp only [List.mem_singleton] at hd
    subst hd
    simp only [docSchemaValid, liveDocA]
    norm_num
  have hmem : docToListing liveDocA ∈ get_listings (.available [liveDocA]) none none := by
    rw [show get_listings (.available [liveDocA]) none none = [docToListing liveDocA] from rfl]
    exact List.mem_singleton.mpr rfl
  exact get_listings_invariant (.available [liveDocA]) none none hvalid
    (docToListing liveDocA) hmem

/-- C6: any request body whose `message` is shorter than 5 characters or
longer than 2000, or whose `email` fails the email syntax check, is rejected
by validation before the handler runs, so no store insertion is attempted. -/
theorem post_inquiries_rejects_invalid (validEmail : String → Bool) (r : RawInquiry)
    (o : InsertOutcome)
    (h : r.message.length < 5 ∨ 2000 < r.message.length ∨ validEmail r.email = false) :
    post_inquiries validEmail r o = (.validationError, false) := by
  have hcond : (validEmail r.email && decide (5 ≤ r.message.length)
      && decide (r.message.length ≤ 2000)) = false := by
    rcases h with h | h | h
    · simp [show ¬ (5 ≤ r.message.length) by omega]
    · simp [show ¬ (r.message.length ≤ 2000) by omega]
    · simp [h]
  simp [post_inquiries, validateInquiry, hcond]

/-- Witness for C6: a two-character message is rejected. -/
theorem post_inquiries_rejects_invalid_witness :
    post_inquiries (fun _ => true) ⟨"Ann", "ann@example.com", "hi", none⟩ .exc
      = (.validationError, false) :=
  post_inquiries_rejects_invalid (fun _ => true) ⟨"Ann", "ann@example.com", "hi", none⟩ .exc
    (Or.inl (by decide))

/-- C7: whenever the live path raises, `get_listings` swallows the exception
and answers with the fallback result, and `create_inquiry` turns a raising
insertion into the 2xx acknowledgment `{status: "ok", id: "demo"}`; neither
handler propagates an exception. -/
theorem handlers_swallow_exceptions (db : DBState) (f : Option Bool) (l : Option Int)
    (payload : InquiryIn) (hexc : tryLivePath db f l = .exc) :
    get_listings db f l = fallbackResult DEMO_LISTINGS f l ∧
    create_inquiry payload .exc = { status := "ok", id := "demo" } := by
  constructor
  · simp [get_listings, hexc]
  · rfl

/-- Witness for C7 at an erroring store. -/
theorem handlers_swallow_exceptions_witness :
    get_listings .error none none = fallbackResult DEMO_LISTINGS none none ∧
    create_inquiry ⟨"Bob", "bob@example.com", "Is this available?", none⟩ .exc
      = { status := "ok", id := "demo" } :=
  handlers_swallow_exceptions .error none none
    ⟨"Bob", "bob@example.com", "Is this available?", none⟩ rfl

/-- C8: against the fallback dataset, `featured=true` returns exactly
demo-1 and demo-2 in that order, and `limit=1` returns exactly demo-1. -/
theorem fallback_featured_and_limit_examples :
    get_listings .moduleAbsent (some true) none = [demoListing1, demoListing2] ∧
    get_listings .moduleAbsent none (some 1) = [demoListing1] :=
  ⟨rfl, rfl⟩

/-- C9: `get_listings` never mutates the fallback dataset: in the
state-passing form of the handler the `DEMO_LISTINGS` binding is returned
unchanged for every input and backend condition, and the response agrees
with `get_listings`. -/
theorem get_listings_preserves_demo (demo : List ListingOut) (db : DBState)
    (f : Option Bool) (l : Option Int) :
    (get_listings_run demo db f l).2 = demo ∧
    (get_listings_run DEMO_LISTINGS db f l).1 = get_listings db f l := by
  constructor
  · rcases htry : tryLivePath db f l with val | _
    · cases val <;> simp [get_listings_run, htry]
    · simp [get_listings_run, htry]
  · rcases htry : tryLivePath db f l with val | _
    · cases val <;> simp [get_listings_run, get_listings, htry] <;> rfl
    · simp [get_listings_run, get_listings, htry]
      rfl

/-- C10: `limit` is accepted as an arbitrary integer.  On the fallback path
the result is the Python slice of the filtered list: `limit = 0` yields the
empty list and `limit = -1` yields all but the last record; on the live path
a `limit` of 0 is ignored entirely and the full live result is returned. -/
theorem limit_python_slice_semantics :
    get_listings .moduleAbsent none (some 0) = [] ∧
    get_listings .moduleAbsent none (some (-1)) = [demoListing1, demoListing2] ∧
    get_listings (.available [liveDocA]) none (some 0) = [docToListing liveDocA] :=
  ⟨rfl, rfl, rfl⟩

end RealEstate
